import Mathlib

/-!
Verification of `articles.py` (article-ideas-generator).

The program is a Flask handler `index` over a process-wide dictionary
`PAGE`, plus two JSON-extracting helpers `get_page_sections` and
`get_red_links`.  We shallowly embed the JSON values the helpers consume,
the Python dictionary operations they perform (with `Except` capturing the
Python exceptions `KeyError` / `AttributeError` / `TypeError` that direct
indexing and `.get` / `.values` can raise), and the control flow of the
handler.  Network transport (`SESSION.get` / `res.json()`) is not modelled:
each helper is embedded as a function of the already-decoded JSON response,
and the handler is parameterised by the two fetchers it invokes, recording
the page name each one is called with.
-/

/-- JSON values, as decoded by `res.json()`.  Objects keep their fields in
insertion order, matching Python 3 `dict` ordering. -/
inductive Json where
  | null : Json
  | str : String → Json
  | num : Int → Json
  | bool : Bool → Json
  | arr : List Json → Json
  | obj : List (String × Json) → Json
deriving Repr

/-- Python exceptions that the embedded dictionary operations can raise. -/
inductive PyError where
  | keyError : PyError
  | attributeError : PyError
  | typeError : PyError
deriving Repr, DecidableEq

/-- First-match lookup in an object's field list (Python dicts have unique
keys, so first-match agrees with dict lookup). -/
def lookupField : List (String × Json) → String → Option Json
  | [], _ => none
  | (k, v) :: rest, key => if k = key then some v else lookupField rest key

/-- Python `d.get(key, default)` on a dictionary's field list. -/
def dictGetD (fields : List (String × Json)) (key : String) (dflt : Json) : Json :=
  (lookupField fields key).getD dflt

/-- Python `value[key]` with a string key: `KeyError` when the key is absent
from a dictionary, `TypeError` when the value is not a dictionary. -/
def getItem (j : Json) (key : String) : Except PyError Json :=
  match j with
  | Json.obj fields =>
    match lookupField fields key with
    | some v => Except.ok v
    | none => Except.error PyError.keyError
  | _ => Except.error PyError.typeError

/-- The loop body of `get_page_sections`'s list comprehension
`[section['line'] for section in parsed_sections if section['toclevel'] == 1]`:
per element, `section['toclevel']` is read first, the element is kept when it
equals the integer 1, and only then is `section['line']` read. -/
def sectionsLoop : List Json → Except PyError (List Json)
  | [] => Except.ok []
  | s :: rest => do
    let tl ← getItem s "toclevel"
    match tl with
    | Json.num n =>
      if n = 1 then
        let ln ← getItem s "line"
        let tail ← sectionsLoop rest
        Except.ok (ln :: tail)
      else
        sectionsLoop rest
    | _ => sectionsLoop rest

/-- `get_page_sections` applied to the decoded JSON response `data`
(a JSON object, as the MediaWiki API returns):

```
if 'error' in data: return []
parsed_sections = data.get('parse', {}).get('sections', [])
return [section['line'] for section in parsed_sections if section['toclevel'] == 1]
```

A non-dictionary `parse` value makes the second `.get` raise
`AttributeError`; a non-list `sections` value makes the comprehension's
iteration fail (modelled as `TypeError`). -/
def get_page_sections (data : List (String × Json)) : Except PyError (List Json) :=
  if (lookupField data "error").isSome then
    Except.ok []
  else
    match dictGetD data "parse" (Json.obj []) with
    | Json.obj parseFields =>
      match dictGetD parseFields "sections" (Json.arr []) with
      | Json.arr parsed_sections => sectionsLoop parsed_sections
      | _ => Except.error PyError.typeError
    | _ => Except.error PyError.attributeError

/-- The loop body of `get_red_links`'s comprehension
`[page['title'] for page in pages.values() if 'missing' in page]`:
per page value, membership of the key `'missing'` is tested first and
`page['title']` is read only for pages that carry it.  A page value that is
not a dictionary is modelled as `TypeError` (the API schema never produces
one). -/
def redLinksLoop : List Json → Except PyError (List Json)
  | [] => Except.ok []
  | p :: rest =>
    match p with
    | Json.obj fields =>
      if (lookupField fields "missing").isSome then do
        let t ← getItem p "title"
        let tail ← redLinksLoop rest
        Except.ok (t :: tail)
      else
        redLinksLoop rest
    | _ => Except.error PyError.typeError

/-- `get_red_links` applied to the decoded JSON response `data`:

```
pages = data.get('query', {}).get('pages', {})
return [page['title'] for page in pages.values() if 'missing' in page]
```

`pages.values()` iterates the dictionary's values in insertion order; on a
non-dictionary `query` or `pages` value the `.get` / `.values` attribute
access raises `AttributeError`. -/
def get_red_links (data : List (String × Json)) : Except PyError (List Json) :=
  match dictGetD data "query" (Json.obj []) with
  | Json.obj queryFields =>
    match dictGetD queryFields "pages" (Json.obj []) with
    | Json.obj pages => redLinksLoop (pages.map (fun f => f.2))
    | _ => Except.error PyError.attributeError
  | _ => Except.error PyError.attributeError

/-- The global `PAGE` dictionary.  Only the keys `'name'` and `'type'` are
ever written, so it is embedded as a record of two optional fields, both
absent in the initial state `PAGE = {}`. -/
structure PageState where
  name : Option String
  type : Option String
deriving Repr, DecidableEq

/-- `PAGE = {}`, the state at process start. -/
def initialPAGE : PageState := { name := none, type := none }

/-- HTTP request method; the route accepts exactly GET and POST. -/
inductive Method where
  | GET : Method
  | POST : Method
deriving Repr, DecidableEq

/-- The form fields the handler consults: `request.form` restricted to the
keys `'category'` and `'subcategory'` (a GET request carries an empty form). -/
structure Form where
  category : Option String
  subcategory : Option String
deriving Repr, DecidableEq

/-- An inbound request as the handler observes it. -/
structure Request where
  method : Method
  form : Form
deriving Repr, DecidableEq

/-- What the handler hands to `render_template`, together with the updated
global state: the new `PAGE`, the `results` list and the `pagetype`. -/
structure HandlerResult where
  page : PageState
  results : List String
  pagetype : String
deriving Repr, DecidableEq

/-- The route handler `index`, parameterised by the two fetchers it invokes
(`get_page_sections` and `get_red_links` in the program, both of type
page-name → result list after JSON extraction):

```
results = []
if request.method == 'POST':
    if 'category' in request.form:
        PAGE['name'] += '/' + request.form.to_dict()['category']
        PAGE['type'] = 'subcategory'
        results = get_page_sections(PAGE['name'])
    elif 'subcategory' in request.form:
        PAGE['name'] += '#' + request.form.to_dict()['subcategory']
        PAGE['type'] = 'links'
        results = get_red_links(PAGE['name'])
else:
    PAGE = {'name': 'Wikipedia:Requested_articles', 'type': 'category'}
    results = get_page_sections(PAGE['name'])
return render_template("articles.html", results=results, pagetype=PAGE['type'])
```

`PAGE['name'] += ...` reads `PAGE['name']` first, so it raises `KeyError`
when the key is absent; so does the final `PAGE['type']` read at render
time. -/
def index (fetchSections fetchRedLinks : String → List String)
    (PAGE : PageState) (req : Request) : Except PyError HandlerResult :=
  let step : Except PyError (PageState × List String) :=
    match req.method with
    | Method.POST =>
      match req.form.category with
      | some v =>
        match PAGE.name with
        | none => Except.error PyError.keyError
        | some n =>
          let newName := n ++ "/" ++ v
          Except.ok ({ name := some newName, type := some "subcategory" },
            fetchSections newName)
      | none =>
        match req.form.subcategory with
        | some v =>
          match PAGE.name with
          | none => Except.error PyError.keyError
          | some n =>
            let newName := n ++ "#" ++ v
            Except.ok ({ name := some newName, type := some "links" },
              fetchRedLinks newName)
        | none => Except.ok (PAGE, [])
    | Method.GET =>
      let p : PageState :=
        { name := some "Wikipedia:Requested_articles", type := some "category" }
      Except.ok (p, fetchSections "Wikipedia:Requested_articles")
  match step with
  | Except.error e => Except.error e
  | Except.ok (p, results) =>
    match p.type with
    | none => Except.error PyError.keyError
    | some t => Except.ok { page := p, results := results, pagetype := t }

/-- Running the handler over a sequence of requests, threading the global
`PAGE` through and stopping at the first uncaught exception. -/
def runRequests (fetchSections fetchRedLinks : String → List String)
    (PAGE : PageState) : List Request → Except PyError PageState
  | [] => Except.ok PAGE
  | req :: rest =>
    match index fetchSections fetchRedLinks PAGE req with
    | Except.error e => Except.error e
    | Except.ok r => runRequests fetchSections fetchRedLinks r.page rest

/-- A section entry of a well-formed `parse.sections` response: a JSON object
carrying at least a `'line'` value and an integer `'toclevel'`. -/
structure SectionRec where
  line : Json
  toclevel : Int
deriving Repr

/-- The JSON object a section entry decodes to. -/
def SectionRec.toJson (s : SectionRec) : Json :=
  Json.obj [("toclevel", Json.num s.toclevel), ("line", s.line)]

/-- A well-formed parse response around a given section list. -/
def parseResponse (secs : List SectionRec) : List (String × Json) :=
  [("parse", Json.obj [("sections", Json.arr (secs.map SectionRec.toJson))])]

/-- A page entry of a well-formed `query.pages` response: a JSON object with
a `'title'` value and, optionally, a `'missing'` marker. -/
structure PageRec where
  title : Json
  missing : Option Json
deriving Repr

/-- The JSON object a page entry decodes to. -/
def PageRec.toJson (p : PageRec) : Json :=
  Json.obj (("title", p.title) ::
    (match p.missing with
     | some m => [("missing", m)]
     | none => []))

/-- A well-formed query response around a given pages map (entries keyed by
page-id string, in the map's insertion order). -/
def queryResponse (entries : List (String × PageRec)) : List (String × Json) :=
  [("query", Json.obj [("pages",
    Json.obj (entries.map (fun e => (e.1, PageRec.toJson e.2))))])]

/-! ## Helper lemmas -/

/-- Unfolding `get_page_sections`'s comprehension over a list of well-formed
section objects: it keeps exactly the `line` values of sections whose
`toclevel` is 1, in order. -/
theorem sectionsLoop_map (secs : List SectionRec) :
    sectionsLoop (secs.map SectionRec.toJson) =
      Except.ok ((secs.filter (fun s => s.toclevel = 1)).map SectionRec.line) := by
  induction secs with
  | nil => rfl
  | cons s rest ih =>
    by_cases h : s.toclevel = 1 <;>
      simp [sectionsLoop, SectionRec.toJson, getItem, lookupField, h, ih,
        List.filter_cons, Bind.bind, Except.bind]

/-- Unfolding `get_red_links`'s comprehension over a list of well-formed page
objects: it keeps exactly the `title` values of pages carrying a `missing`
marker, in order. -/
theorem redLinksLoop_map (ps : List PageRec) :
    redLinksLoop (ps.map PageRec.toJson) =
      Except.ok ((ps.filter (fun p => p.missing.isSome)).map PageRec.title) := by
  induction ps with
  | nil => rfl
  | cons p rest ih =>
    cases hm : p.missing <;>
      simp [redLinksLoop, PageRec.toJson, getItem, lookupField, hm, ih, List.filter_cons,
        Bind.bind, Except.bind]

/-! ## Claims -/

/-- Claim C1: for every parse response around a section list (each entry
carrying a `line` value and an integer `toclevel`), `get_page_sections`
returns exactly the `line` values of the sections whose `toclevel` equals 1,
in the order the API returned them, and excludes all sections at any other
depth. -/
theorem get_page_sections_toclevel_one (secs : List SectionRec) :
    get_page_sections (parseResponse secs) =
      Except.ok ((secs.filter (fun s => s.toclevel = 1)).map SectionRec.line) := by
  have h : get_page_sections (parseResponse secs) =
      sectionsLoop (secs.map SectionRec.toJson) := rfl
  rw [h, sectionsLoop_map]

/-- Claim C2: for every query response, `get_red_links` returns exactly the
`title` values of the entries of the `pages` map that contain a `missing`
key (in map order), and no titles of entries without that key; in
particular, for the pages map `{"1": {"title": "A"}, "2": {"title": "B",
"missing": ""}}` it returns exactly `["B"]`. -/
theorem get_red_links_missing_titles :
    (∀ entries : List (String × PageRec),
      get_red_links (queryResponse entries) =
        Except.ok ((entries.filter (fun e => e.2.missing.isSome)).map (fun e => e.2.title))) ∧
    get_red_links (queryResponse
        [("1", { title := Json.str "A", missing := none }),
         ("2", { title := Json.str "B", missing := some (Json.str "") })]) =
      Except.ok [Json.str "B"] := by
  constructor
  · intro entries
    have h1 : get_red_links (queryResponse entries) =
        redLinksLoop ((entries.map (fun e => (e.1, PageRec.toJson e.2))).map (fun f => f.2)) :=
      rfl
    have h2 : ((entries.map (fun e => (e.1, PageRec.toJson e.2))).map (fun f => f.2)) =
        (entries.map (fun e => e.2)).map PageRec.toJson := by
      simp [List.map_map, Function.comp]
    rw [h1, h2, redLinksLoop_map, List.filter_map, List.map_map]
    rfl
  · rfl

/-- Claim C3: from any current navigation state (both keys present), a POST
request whose form carries `category = v` appends `"/" ++ v` to the name,
sets the kind to `"subcategory"`, invokes the section fetcher with the
updated name, and returns its result with pagetype `"subcategory"`. -/
theorem index_post_category (fS fR : String → List String) (n t v : String)
    (sub : Option String) :
    index fS fR { name := some n, type := some t }
        { method := Method.POST, form := { category := some v, subcategory := sub } } =
      Except.ok
        { page := { name := some (n ++ "/" ++ v), type := some "subcategory" },
          results := fS (n ++ "/" ++ v), pagetype := "subcategory" } := rfl

/-- Claim C4: from any current navigation state, a POST request whose form
carries `subcategory = v` and no `category` field appends `"#" ++ v` to the
name, sets the kind to `"links"`, invokes the red-link fetcher with the
updated name, and returns its result with pagetype `"links"`. -/
theorem index_post_subcategory (fS fR : String → List String) (n t v : String) :
    index fS fR { name := some n, type := some t }
        { method := Method.POST, form := { category := none, subcategory := some v } } =
      Except.ok
        { page := { name := some (n ++ "#" ++ v), type := some "links" },
          results := fR (n ++ "#" ++ v), pagetype := "links" } := rfl

/-- Claim C5: from every prior state (initialized or not), a GET request
resets the state to name `"Wikipedia:Requested_articles"` and kind
`"category"`, fetches the sections of that page, and returns them with
pagetype `"category"`; in particular, when the section fetcher returns
`["Science", "Arts"]`, the handler's output is exactly that list with
pagetype `"category"`. -/
theorem index_get_resets :
    (∀ (fS fR : String → List String) (page : PageState) (form : Form),
      index fS fR page { method := Method.GET, form := form } =
        Except.ok
          { page := { name := some "Wikipedia:Requested_articles", type := some "category" },
            results := fS "Wikipedia:Requested_articles", pagetype := "category" }) ∧
    (∀ (fR : String → List String) (page : PageState) (form : Form),
      index (fun _ => ["Science", "Arts"]) fR page { method := Method.GET, form := form } =
        Except.ok
          { page := { name := some "Wikipedia:Requested_articles", type := some "category" },
            results := ["Science", "Arts"], pagetype := "category" }) :=
  ⟨fun _ _ _ _ => rfl, fun _ _ _ => rfl⟩

/-- Claim C6: whenever the parse response contains an `error` field,
`get_page_sections` returns the empty list, whatever else the response
holds (in particular even when a `parse` field with sections is present). -/
theorem get_page_sections_error_empty (data : List (String × Json))
    (h : (lookupField data "error").isSome) :
    get_page_sections data = Except.ok [] := by
  simp [get_page_sections, h]

/-- Witness for C6: a response with both an `error` field and a populated
`parse.sections` field still yields `[]`. -/
theorem get_page_sections_error_empty_witness :
    get_page_sections [("error", Json.obj []),
        ("parse", Json.obj [("sections",
          Json.arr [Json.obj [("toclevel", Json.num 1), ("line", Json.str "S")]])])] =
      Except.ok [] :=
  get_page_sections_error_empty _ rfl

/-- Claim C7: both fetchers degrade to the empty list via safe default
lookups when the response lacks the expected fields: `get_page_sections`
returns `[]` with no `parse` field or no `sections` field (absent an
`error` field), and `get_red_links` returns `[]` with no `query` field, no
`pages` field, or an empty pages map. -/
theorem fetchers_default_empty :
    (∀ data : List (String × Json), lookupField data "error" = none →
      lookupField data "parse" = none → get_page_sections data = Except.ok []) ∧
    (∀ (data pf : List (String × Json)), lookupField data "error" = none →
      lookupField data "parse" = some (Json.obj pf) → lookupField pf "sections" = none →
      get_page_sections data = Except.ok []) ∧
    (∀ data : List (String × Json), lookupField data "query" = none →
      get_red_links data = Except.ok []) ∧
    (∀ (data qf : List (String × Json)), lookupField data "query" = some (Json.obj qf) →
      lookupField qf "pages" = none → get_red_links data = Except.ok []) ∧
    (∀ (data qf : List (String × Json)), lookupField data "query" = some (Json.obj qf) →
      lookupField qf "pages" = some (Json.obj []) → get_red_links data = Except.ok []) := by
  refine ⟨?_, ?_, ?_, ?_, ?_⟩
  · intro data h1 h2
    simp [get_page_sections, dictGetD, lookupField, h1, h2, sectionsLoop]
  · intro data pf h1 h2 h3
    simp [get_page_sections, dictGetD, lookupField, h1, h2, h3, sectionsLoop]
  · intro data h1
    simp [get_red_links, dictGetD, lookupField, h1, redLinksLoop]
  · intro data qf h1 h2
    simp [get_red_links, dictGetD, lookupField, h1, h2, redLinksLoop]
  · intro data qf h1 h2
    simp [get_red_links, dictGetD, lookupField, h1, h2, redLinksLoop]

/-- Witness for C7: concrete responses missing `parse`, `sections`, `query`
and `pages`, and an empty pages map, all yield `[]`. -/
theorem fetchers_default_empty_witness :
    get_page_sections [("foo", Json.null)] = Except.ok [] ∧
    get_page_sections [("parse", Json.obj [("bar", Json.null)])] = Except.ok [] ∧
    get_red_links [("foo", Json.null)] = Except.ok [] ∧
    get_red_links [("query", Json.obj [("bar", Json.null)])] = Except.ok [] ∧
    get_red_links [("query", Json.obj [("pages", Json.obj [])])] = Except.ok [] :=
  ⟨fetchers_default_empty.1 _ rfl rfl, fetchers_default_empty.2.1 _ _ rfl rfl rfl,
   fetchers_default_empty.2.2.1 _ rfl, fetchers_default_empty.2.2.2.1 _ _ rfl rfl,
   fetchers_default_empty.2.2.2.2 _ _ rfl rfl⟩

/-- Claim C8: within a GET-free sequence of handler steps the page name only
grows by concatenation.  Part one: every successfully handled POST leaves
the old name an initial segment of the new one (some suffix is appended).
Part two: over any sequence of POST requests the initial name is an initial
segment of the final name; no operation removes a suffix. -/
theorem page_name_monotone :
    (∀ (fS fR : String → List String) (page : PageState) (req : Request) (r : HandlerResult),
      req.method = Method.POST → index fS fR page req = Except.ok r →
      ∀ n, page.name = some n → ∃ s, r.page.name = some (n ++ s)) ∧
    (∀ (fS fR : String → List String) (reqs : List Request) (page page' : PageState),
      (∀ req ∈ reqs, req.method = Method.POST) →
      runRequests fS fR page reqs = Except.ok page' →
      ∀ n, page.name = some n → ∃ s, page'.name = some (n ++ s)) := by
  have step : ∀ (fS fR : String → List String) (page : PageState) (req : Request)
      (r : HandlerResult), req.method = Method.POST → index fS fR page req = Except.ok r →
      ∀ n, page.name = some n → ∃ s, r.page.name = some (n ++ s) := by
    intro fS fR page req r hm hidx n hn
    obtain ⟨method, cat, sub⟩ := req
    obtain ⟨pname, ptype⟩ := page
    simp only at hm hn
    subst hm
    subst hn
    cases cat with
    | some v =>
      simp only [index] at hidx
      obtain rfl := (Except.ok.injEq _ _).mp hidx
      exact ⟨"/" ++ v, by simp [String.append_assoc]⟩
    | none =>
      cases sub with
      | some v =>
        simp only [index] at hidx
        obtain rfl := (Except.ok.injEq _ _).mp hidx
        exact ⟨"#" ++ v, by simp [String.append_assoc]⟩
      | none =>
        cases ptype with
        | none => simp [index] at hidx
        | some t =>
          simp only [index] at hidx
          obtain rfl := (Except.ok.injEq _ _).mp hidx
          exact ⟨"", by simp [String.append_empty]⟩
  refine ⟨step, ?_⟩
  intro fS fR reqs
  induction reqs with
  | nil =>
    intro page page' hall hrun n hn
    simp only [runRequests] at hrun
    obtain rfl := (Except.ok.injEq _ _).mp hrun
    exact ⟨"", by simp [String.append_empty, hn]⟩
  | cons req rest ih =>
    intro page page' hall hrun n hn
    simp only [runRequests] at hrun
    cases hidx : index fS fR page req with
    | error e => rw [hidx] at hrun; exact absurd hrun (by simp)
    | ok r =>
      rw [hidx] at hrun
      obtain ⟨s1, hs1⟩ := step fS fR page req r (hall req (by simp)) hidx n hn
      obtain ⟨s2, hs2⟩ := ih r.page page' (fun q hq => hall q (by simp [hq])) hrun (n ++ s1) hs1
      exact ⟨s1 ++ s2, by rw [hs2, String.append_assoc]⟩

/-- Witness for C8: running the two-POST sequence category `"A"` then
subcategory `"B"` from name `"X"` ends at a name extending `"X"`. -/
theorem page_name_monotone_witness :
    ∃ s, (PageState.mk (some "X/A#B") (some "links")).name = some ("X" ++ s) :=
  page_name_monotone.2 (fun _ => []) (fun _ => [])
    [{ method := Method.POST, form := { category := some "A", subcategory := none } },
     { method := Method.POST, form := { category := none, subcategory := some "B" } }]
    { name := some "X", type := some "category" }
    { name := some "X/A#B", type := some "links" }
    (by decide) rfl "X" rfl

/-- Counterexample to claim C9 as stated: from the state of kind `"links"`,
a POST carrying a category choice is accepted and moves the kind back to
`"subcategory"` — so `"links"` is not terminal and a choice does move the
kind from `"links"` to an earlier state, contradicting the claimed
transition relation. -/
theorem kind_links_not_terminal :
    index (fun _ => []) (fun _ => [])
        { name := some "X", type := some "links" }
        { method := Method.POST, form := { category := some "Y", subcategory := none } } =
      Except.ok
        { page := { name := some "X/Y", type := some "subcategory" },
          results := [], pagetype := "subcategory" } ∧
    "subcategory" ≠ "links" := ⟨rfl, by decide⟩

/-- Claim C9 (amended): the next kind is determined by the request alone and
never by the current kind — any POST with a category choice sets the kind to
`"subcategory"`, any POST with a subcategory choice (and no category field)
sets it to `"links"`, a GET resets it to `"category"`, and a POST carrying
neither field leaves it unchanged; in particular `"links"` is not terminal. -/
theorem kind_determined_by_request :
    (∀ (fS fR : String → List String) (n t v : String) (sub : Option String),
      (index fS fR { name := some n, type := some t }
          { method := Method.POST, form := { category := some v, subcategory := sub } }).map
        (fun r => r.page.type) = Except.ok (some "subcategory")) ∧
    (∀ (fS fR : String → List String) (n t v : String),
      (index fS fR { name := some n, type := some t }
          { method := Method.POST, form := { category := none, subcategory := some v } }).map
        (fun r => r.page.type) = Except.ok (some "links")) ∧
    (∀ (fS fR : String → List String) (page : PageState) (form : Form),
      (index fS fR page { method := Method.GET, form := form }).map
        (fun r => r.page.type) = Except.ok (some "category")) ∧
    (∀ (fS fR : String → List String) (n t : String),
      (index fS fR { name := some n, type := some t }
          { method := Method.POST, form := { category := none, subcategory := none } }).map
        (fun r => r.page.type) = Except.ok (some t)) :=
  ⟨fun _ _ _ _ _ _ => rfl, fun _ _ _ _ _ => rfl, fun _ _ _ _ => rfl, fun _ _ _ _ => rfl⟩

/-- Claim C10: when the first handled request is a POST carrying a category
or subcategory choice (no GET has yet run, so `PAGE = {}` has no `'name'`
key), the handler raises `KeyError` instead of returning an empty result. -/
theorem uninitialized_page_keyerror :
    (∀ (fS fR : String → List String) (v : String) (sub : Option String),
      index fS fR initialPAGE
          { method := Method.POST, form := { category := some v, subcategory := sub } } =
        Except.error PyError.keyError) ∧
    (∀ (fS fR : String → List String) (v : String),
      index fS fR initialPAGE
          { method := Method.POST, form := { category := none, subcategory := some v } } =
        Except.error PyError.keyError) :=
  ⟨fun _ _ _ _ => rfl, fun _ _ _ => rfl⟩
